import Mathlib

/-!
Verification development for the LingQ-to-Anki command-line utility
(source file: main.py).

The program is a sequential script: it authenticates against the LingQ
REST API, fetches the unlearned vocabulary cards of one language, turns
each card that has at least one translation hint into an Anki note
payload, submits the payloads to AnkiConnect (or merely reports them in
dry-run mode), and optionally marks every fetched card as known.

The embedding below is shallow: data read from JSON responses becomes
plain structures, every HTTP request the program can build becomes a
value of an explicit request type, and the effectful body of the
program becomes a function from an environment (the responses that the
two remote services would give) to a trace of externally visible
events together with an exit result.
-/

namespace LingqToAnki

/-! ## Data model -/

/-- One translation hint attached to a card.  The program only ever
reads the field named text; the other fields of the JSON object are
not consumed and therefore not modelled. -/
structure Hint where
  text : String
deriving Repr, DecidableEq

/-- One LingQ vocabulary card, as read by the program: the field pk is
its identifier, term its source-language text, hints its ordered
sequence of translation candidates. -/
structure Card where
  pk : Nat
  term : String
  hints : List Hint
deriving Repr, DecidableEq

/-- The envelope of the card-listing response: a reported count and the
sequence of results. -/
structure CardsResponse where
  count : Nat
  results : List Card
deriving Repr, DecidableEq

/-- One Anki note-creation payload, as built by main: an optional deck
name, an optional model name, a Front and a Back field, and the fixed
tags marker. -/
structure NotePayload where
  deckName : Option String
  modelName : Option String
  front : String
  back : String
  tags : String
deriving Repr, DecidableEq

/-! ## Filter and transform (main.py lines 186 to 198)

The list comprehension in main builds one payload per card whose hints
sequence is non-empty, reading the term and the text of the first
hint. -/

/-- The list comprehension notes_to_create of main: keep each card with
at least one hint and map it to a payload whose Front field is the
term and whose Back field is the text of the first hint. -/
def notes_to_create (deck model : Option String) (cards : List Card) : List NotePayload :=
  cards.filterMap fun card =>
    if h : 0 < card.hints.length then
      some { deckName := deck, modelName := model,
             front := card.term,
             back := (card.hints.get ⟨0, h⟩).text,
             tags := "lingq" }
    else
      none

/-! ## Pagination guard (main.py lines 104 to 116)

list_unlearned_cards reads the results field of the response, asserts
that its length equals the reported count, and returns it unchanged.
The HTTP transport itself is modelled separately (in the environment
and in the request constructors); this function models the handling of
an already received response body, where the assert statement becomes
an error result. -/

/-- The message of the AssertionError raised by the statement
assert len(results) == x[count] in list_unlearned_cards. -/
def assertionErrorMsg : String := "AssertionError: len(results) == count"

/-- Response handling of list_unlearned_cards: return the results
sequence unchanged when its length equals the reported count, fail
like the assert statement otherwise. -/
def list_unlearned_cards (resp : CardsResponse) : Except String (List Card) :=
  if resp.results.length = resp.count then
    Except.ok resp.results
  else
    Except.error assertionErrorMsg

/-! ## HTTP request layer

Every request the program can build is modelled as a value of an
explicit request type, so that claims about URL schemes and about the
status codes sent on the wire can be stated.  JSON request bodies are
modelled by a small JSON value type. -/

/-- A JSON value, as sent in request bodies. -/
inductive JVal where
  | jnull
  | jbool (b : Bool)
  | jnum (n : Int)
  | jstr (s : String)
  | jarr (items : List JVal)
  | jobj (fields : List (String × JVal))
deriving Repr

/-- An HTTP request as built by the program: a method, a URL, query
parameters, form-encoded data, an optional JSON body and headers. -/
structure HttpRequest where
  method : String
  url : String
  queryParams : List (String × String) := []
  formData : List (String × String) := []
  jsonBody : Option JVal := none
  headers : List (String × String) := []
deriving Repr

/-- An optional string as serialised into JSON (None becomes null). -/
def optStr : Option String → JVal
  | none => JVal.jnull
  | some s => JVal.jstr s

/-- The JSON object that a note payload becomes inside the addNotes
request body. -/
def notePayloadJson (n : NotePayload) : JVal :=
  JVal.jobj
    [("deckName", optStr n.deckName),
     ("modelName", optStr n.modelName),
     ("fields", JVal.jobj [("Front", JVal.jstr n.front), ("Back", JVal.jstr n.back)]),
     ("tags", JVal.jstr n.tags)]

/-- The request built by anki_request: a GET to the fixed local
AnkiConnect endpoint carrying action, params and version 6 as a JSON
body. -/
def anki_request (action : String) (params : JVal) : HttpRequest :=
  { method := "GET", url := "http://localhost:8765",
    jsonBody := some (JVal.jobj
      [("action", JVal.jstr action), ("params", params), ("version", JVal.jnum 6)]) }

/-- The request built by anki_connect_version (params defaulted to the
empty object). -/
def anki_connect_version_request : HttpRequest :=
  anki_request "version" (JVal.jobj [])

/-- The request built by anki_connect_list_decks. -/
def anki_connect_list_decks_request : HttpRequest :=
  anki_request "deckNames" (JVal.jobj [])

/-- The request built by anki_connect_list_models. -/
def anki_connect_list_models_request : HttpRequest :=
  anki_request "modelNames" (JVal.jobj [])

/-- The request built by anki_connect_model_fields. -/
def anki_connect_model_fields_request (model_name : String) : HttpRequest :=
  anki_request "modelFieldNames" (JVal.jobj [("modelName", JVal.jstr model_name)])

/-- The request built by anki_connect_add_notes. -/
def anki_connect_add_notes_request (note_data : List NotePayload) : HttpRequest :=
  anki_request "addNotes" (JVal.jobj [("notes", JVal.jarr (note_data.map notePayloadJson))])

/-- The request built by lingq_login: a POST with form-encoded
credentials to the token-auth endpoint. -/
def lingq_login_request (username password : String) : HttpRequest :=
  { method := "POST", url := "https://www.lingq.com/api/api-token-auth/",
    formData := [("username", username), ("password", password)] }

/-- The request built by lingq_list_languages. -/
def lingq_list_languages_request (token : String) : HttpRequest :=
  { method := "GET", url := "https://www.lingq.com/api/languages",
    headers := [("Authorization", "Token " ++ token)] }

/-- The request built by list_unlearned_cards: a GET on the
per-language cards endpoint with sort date and status 0. -/
def list_unlearned_cards_request (token language_code : String) : HttpRequest :=
  { method := "GET",
    url := "https://www.lingq.com/api/v2/" ++ language_code ++ "/cards",
    queryParams := [("sort", "date"), ("status", "0")],
    headers := [("Authorization", "Token " ++ token)] }

/-- The request built by mark_linqg_known: a PUT with JSON body
status 3 on the per-card lingqs endpoint.  Note that the URL literal
in the source uses the http scheme, unlike the other three LingQ
endpoints. -/
def mark_linqg_known_request (token language_code : String) (id : Nat) : HttpRequest :=
  { method := "PUT",
    url := "http://www.lingq.com/api/languages/" ++ language_code ++ "/lingqs/"
             ++ toString id ++ "/",
    jsonBody := some (JVal.jobj [("status", JVal.jnum 3)]),
    headers := [("Authorization", "Token " ++ token)] }

/-- A URL has the https scheme when its first eight characters are
the string https followed by the colon and two slashes. -/
def isHttps (url : String) : Bool :=
  url.data.take 8 == "https://".data

/-! ## Status values carried by a request (for C8) -/

mutual

/-- All JSON values stored under a key named status anywhere inside a
JSON value. -/
def jvalStatusValues : JVal → List JVal
  | JVal.jnull => []
  | JVal.jbool _ => []
  | JVal.jnum _ => []
  | JVal.jstr _ => []
  | JVal.jarr items => jlistStatusValues items
  | JVal.jobj fields => jfieldsStatusValues fields

/-- Status values inside each element of a JSON array. -/
def jlistStatusValues : List JVal → List JVal
  | [] => []
  | v :: rest => jvalStatusValues v ++ jlistStatusValues rest

/-- Status values inside the fields of a JSON object: the value of
each key named status, plus anything nested below any value. -/
def jfieldsStatusValues : List (String × JVal) → List JVal
  | [] => []
  | (k, v) :: rest =>
      (if k = "status" then [v] else []) ++ jvalStatusValues v ++ jfieldsStatusValues rest

end

/-- The values sent under a query parameter named status. -/
def statusQueryValues (r : HttpRequest) : List String :=
  r.queryParams.filterMap fun p => if p.1 = "status" then some p.2 else none

/-- The values sent under a form field named status. -/
def statusFormValues (r : HttpRequest) : List String :=
  r.formData.filterMap fun p => if p.1 = "status" then some p.2 else none

/-- The JSON values sent under a key named status anywhere in the
request body. -/
def statusJsonValues (r : HttpRequest) : List JVal :=
  match r.jsonBody with
  | none => []
  | some v => jvalStatusValues v

/-! ## Command surface (main.py lines 127 to 152)

parse_arguments builds an argparse parser with five subcommands.
argparse behaviour modelled here: every parser carries the auto-added
help option (-h or --help), which prints the help text and terminates
the process with exit status 0; an unknown first token that is not an
option is rejected by argparse itself, which prints an error naming
the invalid choice and terminates the process with exit status 2; an
unknown option is an unrecognized-arguments error (exit status 2); a
missing subcommand leaves the command attribute as None; a required
option that is absent is an argparse error (exit status 2); an option
value may not start with a dash, so a help token standing where an
option value is expected is an expected-one-argument error, not help;
a store-true flag needs no value; later occurrences of an option
override earlier ones. -/

/-- The options of the import subcommand, after parsing: deck and
model default to None, the two boolean flags default to false. -/
structure ImportArgs where
  username : String
  password : String
  language : String
  deck : Option String := none
  model : Option String := none
  dry_run : Bool := false
  mark_known : Bool := false
deriving Repr, DecidableEq

/-- The parsed command line.  cmdNone models the case where no
subcommand was given at all (argparse leaves the command attribute as
None and main reaches its final else branch). -/
inductive Command where
  | cmdNone
  | decks
  | models
  | model (model_name : String)
  | langs (username password : String)
  | importCmd (args : ImportArgs)
deriving Repr, DecidableEq

/-- Accumulator for the options of the import subparser. -/
structure ImportAcc where
  username : Option String := none
  password : Option String := none
  language : Option String := none
  deck : Option String := none
  model : Option String := none
  dry_run : Bool := false
  mark_known : Bool := false
deriving Repr, DecidableEq

/-- An argparse failure: the exit status (always 2) and the error
message. -/
abbrev ArgError := Nat × String

/-- The argparse test for an option-looking token: it begins with a
dash, so it is not accepted as the value of an option. -/
def looksLikeOption (s : String) : Bool :=
  match s.data with
  | [] => false
  | c :: _ => c = '-'

/-- The exit status and message of the argparse help action: help is
printed and the process terminates with status 0. -/
def helpExit : ArgError := (0, "show this help message and exit")

/-- Option parsing of the import subparser over its token list. -/
def parseImportTokens : List String → ImportAcc → Except ArgError ImportAcc
  | [], acc => Except.ok acc
  | ["--username"], _ => Except.error (2, "argument --username: expected one argument")
  | "--username" :: v :: rest, acc =>
      if looksLikeOption v then Except.error (2, "argument --username: expected one argument")
      else parseImportTokens rest { acc with username := some v }
  | ["--password"], _ => Except.error (2, "argument --password: expected one argument")
  | "--password" :: v :: rest, acc =>
      if looksLikeOption v then Except.error (2, "argument --password: expected one argument")
      else parseImportTokens rest { acc with password := some v }
  | ["--language"], _ => Except.error (2, "argument --language: expected one argument")
  | "--language" :: v :: rest, acc =>
      if looksLikeOption v then Except.error (2, "argument --language: expected one argument")
      else parseImportTokens rest { acc with language := some v }
  | ["--deck"], _ => Except.error (2, "argument --deck: expected one argument")
  | "--deck" :: v :: rest, acc =>
      if looksLikeOption v then Except.error (2, "argument --deck: expected one argument")
      else parseImportTokens rest { acc with deck := some v }
  | ["--model"], _ => Except.error (2, "argument --model: expected one argument")
  | "--model" :: v :: rest, acc =>
      if looksLikeOption v then Except.error (2, "argument --model: expected one argument")
      else parseImportTokens rest { acc with model := some v }
  | "--dry-run" :: rest, acc => parseImportTokens rest { acc with dry_run := true }
  | "--mark-known" :: rest, acc => parseImportTokens rest { acc with mark_known := true }
  | "-h" :: _, _ => Except.error helpExit
  | "--help" :: _, _ => Except.error helpExit
  | tok :: _, _ => Except.error (2, "unrecognized arguments: " ++ tok)

/-- The import subparser: parse the options and check the three
required ones. -/
def parseImportArgs (tokens : List String) : Except ArgError Command := do
  let acc ← parseImportTokens tokens {}
  match acc.username, acc.password, acc.language with
  | some u, some p, some l =>
      Except.ok (Command.importCmd
        { username := u, password := p, language := l,
          deck := acc.deck, model := acc.model,
          dry_run := acc.dry_run, mark_known := acc.mark_known })
  | _, _, _ =>
      Except.error (2, "the following arguments are required: --username, --password, --language")

/-- Accumulator for the options of the langs subparser. -/
structure LangsAcc where
  username : Option String := none
  password : Option String := none
deriving Repr, DecidableEq

/-- Option parsing of the langs subparser over its token list. -/
def parseLangsTokens : List String → LangsAcc → Except ArgError LangsAcc
  | [], acc => Except.ok acc
  | ["--username"], _ => Except.error (2, "argument --username: expected one argument")
  | "--username" :: v :: rest, acc =>
      if looksLikeOption v then Except.error (2, "argument --username: expected one argument")
      else parseLangsTokens rest { acc with username := some v }
  | ["--password"], _ => Except.error (2, "argument --password: expected one argument")
  | "--password" :: v :: rest, acc =>
      if looksLikeOption v then Except.error (2, "argument --password: expected one argument")
      else parseLangsTokens rest { acc with password := some v }
  | "-h" :: _, _ => Except.error helpExit
  | "--help" :: _, _ => Except.error helpExit
  | tok :: _, _ => Except.error (2, "unrecognized arguments: " ++ tok)

/-- The langs subparser: parse the options and check the two required
ones. -/
def parseLangsArgs (tokens : List String) : Except ArgError Command := do
  let acc ← parseLangsTokens tokens {}
  match acc.username, acc.password with
  | some u, some p => Except.ok (Command.langs u p)
  | _, _ =>
      Except.error (2, "the following arguments are required: --username, --password")

/-- parse_arguments: dispatch on the subcommand token.  An empty
argument list yields the None command; a help token triggers the
argparse help action (exit status 0); a first token that is not an
option and not one of the five subcommands is the argparse
invalid-choice error (exit status 2); an unknown option is an
unrecognized-arguments error (exit status 2).  The decks, models and
model subparsers have no options besides help, so a help token
anywhere among their arguments triggers help. -/
def parse_arguments (argv : List String) : Except ArgError Command :=
  match argv with
  | [] => Except.ok Command.cmdNone
  | cmd :: rest =>
    if cmd = "-h" ∨ cmd = "--help" then
      Except.error helpExit
    else if cmd = "decks" then
      match rest with
      | [] => Except.ok Command.decks
      | tok :: _ =>
        if rest.contains "-h" || rest.contains "--help" then Except.error helpExit
        else Except.error (2, "unrecognized arguments: " ++ tok)
    else if cmd = "models" then
      match rest with
      | [] => Except.ok Command.models
      | tok :: _ =>
        if rest.contains "-h" || rest.contains "--help" then Except.error helpExit
        else Except.error (2, "unrecognized arguments: " ++ tok)
    else if cmd = "model" then
      if rest.contains "-h" || rest.contains "--help" then
        Except.error helpExit
      else
        match rest with
        | [name] => Except.ok (Command.model name)
        | [] => Except.error (2, "the following arguments are required: model_name")
        | _ :: tok :: _ => Except.error (2, "unrecognized arguments: " ++ tok)
    else if cmd = "langs" then
      parseLangsArgs rest
    else if cmd = "import" then
      parseImportArgs rest
    else if looksLikeOption cmd then
      Except.error (2, "unrecognized arguments: " ++ cmd)
    else
      Except.error (2, "argument command: invalid choice: " ++ cmd)

/-! ## Effect model of main (main.py lines 155 to 229)

The body of main is modelled as a function from the parsed command and
an environment (the responses the two services would give to each
call) to the list of externally visible events, in order, together
with either the returned exit code or the message of an uncaught
exception. -/

/-- An externally visible event: a network call to one of the two
services, a line written to standard output, or a line written to
standard error. -/
inductive Event where
  | callVersion
  | callListDecks
  | callListModels
  | callModelFields (model_name : String)
  | callLogin (username password : String)
  | callListLanguages
  | callListCards (language : String)
  | callAddNotes (notes : List NotePayload)
  | callMarkKnown (pk : Nat)
  | outLine (s : String)
  | errLine (s : String)
deriving Repr, DecidableEq

/-- The environment of one run: what each remote call would return.
An error value models the corresponding HTTP or protocol exception. -/
structure Env where
  versionResult : Except String Nat
  deckNamesResult : Except String (List String)
  modelNamesResult : Except String (List String)
  modelFieldsResult : String → Except String (List String)
  loginResult : Except String String
  languagesResult : Except String (List String)
  cardsResult : Except String CardsResponse
  addNotesResult : Except String (List (Option Nat))
  markKnownOk : Nat → Bool

/-- The stderr line printed before each Anki-backed command. -/
def connectedLine (v : Nat) : String :=
  s!"Connected to Ankiconnect version {v}"

/-- The dry-run line printed for one payload. -/
def wouldAddLine (n : NotePayload) : String :=
  s!"Would try to add card {n.front} -> {n.back}"

/-- The line printed for a payload rejected as a duplicate. -/
def duplicateLine (n : NotePayload) : String :=
  s!"Card was a duplicate: {n.front}"

/-- The line printed for a payload added successfully. -/
def addedLine (n : NotePayload) : String :=
  s!"Added card: {n.front} -> {n.back}"

/-- The final count line of the live submit phase. -/
def summaryLine (k : Nat) : String :=
  s!"{k} new cards added"

/-- The dry-run line printed for one card of the mark-known loop. -/
def wouldMarkLine (c : Card) : String :=
  s!"Would mark lingq {c.term} as known"

/-- The line printed after marking one card known. -/
def markedLine (c : Card) : String :=
  s!"Marked lingq {c.term} as known"

/-- The line the report loop prints for payload and result: the
duplicate line when the result entry is null, the added line
otherwise. -/
def reportLine (n : NotePayload) : Option Nat → String
  | none => duplicateLine n
  | some _ => addedLine n

/-- The loop for i, note_id in enumerate(note_ids) of main: one line
per result entry, reading notes_to_create at the running index; an
index beyond the payload list is the uncaught IndexError of the
subscript. -/
def reportLoop (notes : List NotePayload) : Nat → List (Option Nat) → List Event × Except String Unit
  | _, [] => ([], Except.ok ())
  | i, idOpt :: rest =>
    match notes[i]? with
    | none => ([], Except.error "IndexError: list index out of range")
    | some note =>
      let (evs, r) := reportLoop notes (i + 1) rest
      (Event.outLine (reportLine note idOpt) :: evs, r)

/-- The submit phase of main: in dry-run mode print one would-add line
per payload without any call; otherwise call addNotes, print one
classification line per result entry via the report loop, and print
the final count of non-null result entries. -/
def submitPhase (a : ImportArgs) (env : Env) (notes : List NotePayload) :
    List Event × Except String Unit :=
  if a.dry_run then
    (notes.map fun n => Event.outLine (wouldAddLine n), Except.ok ())
  else
    match env.addNotesResult with
    | Except.error e => ([Event.callAddNotes notes], Except.error e)
    | Except.ok ids =>
      match reportLoop notes 0 ids with
      | (evs, Except.error e) => (Event.callAddNotes notes :: evs, Except.error e)
      | (evs, Except.ok _) =>
        let validCount := (ids.filter fun n => n.isSome).length
        (Event.callAddNotes notes :: evs ++ [Event.outLine (summaryLine validCount)],
         Except.ok ())

/-- The mark-known loop of main: for each fetched card in order, in
dry-run mode only print the intended action; otherwise call markKnown
and print the confirmation, and let a failing call abort the loop (the
exception of mark_linqg_known propagates). -/
def markLoop (a : ImportArgs) (env : Env) : List Card → List Event × Except String Unit
  | [] => ([], Except.ok ())
  | c :: rest =>
    if a.dry_run then
      let (evs, r) := markLoop a env rest
      (Event.outLine (wouldMarkLine c) :: evs, r)
    else if env.markKnownOk c.pk then
      let (evs, r) := markLoop a env rest
      (Event.callMarkKnown c.pk :: Event.outLine (markedLine c) :: evs, r)
    else
      ([Event.callMarkKnown c.pk], Except.error "TransportError")

/-- The import branch of main: probe the AnkiConnect version, log in,
fetch the unlearned cards, apply the pagination guard, build the
payloads, run the submit phase, and run the mark-known loop when
requested. -/
def importBranch (a : ImportArgs) (env : Env) : List Event × Except String Unit :=
  match env.versionResult with
  | Except.error e => ([Event.callVersion], Except.error e)
  | Except.ok v =>
    let pre1 := [Event.callVersion, Event.errLine (connectedLine v)]
    match env.loginResult with
    | Except.error e => (pre1 ++ [Event.callLogin a.username a.password], Except.error e)
    | Except.ok _ =>
      let pre2 := pre1 ++ [Event.callLogin a.username a.password]
      match env.cardsResult with
      | Except.error e => (pre2 ++ [Event.callListCards a.language], Except.error e)
      | Except.ok resp =>
        let pre3 := pre2 ++ [Event.callListCards a.language]
        match list_unlearned_cards resp with
        | Except.error e => (pre3, Except.error e)
        | Except.ok cards =>
          let notes := notes_to_create a.deck a.model cards
          match submitPhase a env notes with
          | (ev1, Except.error e) => (pre3 ++ ev1, Except.error e)
          | (ev1, Except.ok _) =>
            if a.mark_known then
              let (ev2, r2) := markLoop a env cards
              (pre3 ++ ev1 ++ ev2, r2)
            else
              (pre3 ++ ev1, Except.ok ())

/-- The body of main after argument parsing: dispatch on the command,
produce the event trace and either the returned exit code or the
message of an uncaught exception.  The final else branch (reached only
when no subcommand was given, so the command attribute is None) prints
its message and returns 1; every other branch returns 0 when it
completes. -/
def mainBody (c : Command) (env : Env) : List Event × Except String Nat :=
  match c with
  | Command.decks =>
    match env.versionResult with
    | Except.error e => ([Event.callVersion], Except.error e)
    | Except.ok v =>
      match env.deckNamesResult with
      | Except.error e =>
          ([Event.callVersion, Event.errLine (connectedLine v), Event.callListDecks],
           Except.error e)
      | Except.ok names =>
          ([Event.callVersion, Event.errLine (connectedLine v), Event.callListDecks]
             ++ names.map Event.outLine, Except.ok 0)
  | Command.models =>
    match env.versionResult with
    | Except.error e => ([Event.callVersion], Except.error e)
    | Except.ok v =>
      match env.modelNamesResult with
      | Except.error e =>
          ([Event.callVersion, Event.errLine (connectedLine v), Event.callListModels],
           Except.error e)
      | Except.ok names =>
          ([Event.callVersion, Event.errLine (connectedLine v), Event.callListModels]
             ++ names.map Event.outLine, Except.ok 0)
  | Command.model name =>
    match env.versionResult with
    | Except.error e => ([Event.callVersion], Except.error e)
    | Except.ok v =>
      match env.modelFieldsResult name with
      | Except.error e =>
          ([Event.callVersion, Event.errLine (connectedLine v), Event.callModelFields name],
           Except.error e)
      | Except.ok fields =>
          ([Event.callVersion, Event.errLine (connectedLine v), Event.callModelFields name]
             ++ fields.map Event.outLine, Except.ok 0)
  | Command.langs u p =>
    match env.loginResult with
    | Except.error e => ([Event.callLogin u p], Except.error e)
    | Except.ok _ =>
      match env.languagesResult with
      | Except.error e => ([Event.callLogin u p, Event.callListLanguages], Except.error e)
      | Except.ok codes =>
          ([Event.callLogin u p, Event.callListLanguages] ++ codes.map Event.outLine,
           Except.ok 0)
  | Command.importCmd a =>
    match importBranch a env with
    | (evs, Except.error e) => (evs, Except.error e)
    | (evs, Except.ok _) => (evs, Except.ok 0)
  | Command.cmdNone => ([Event.outLine "No such command: None"], Except.ok 1)

/-- The identifiers of the markKnown calls of a trace, in order. -/
def markCalls (trace : List Event) : List Nat :=
  trace.filterMap fun e =>
    match e with
    | Event.callMarkKnown pk => some pk
    | _ => none

/-! ## Helper lemmas about the loops of the import workflow -/

/-- In dry-run mode the mark-known loop only prints, one line per
fetched card, and performs no call. -/
theorem markLoop_dry (a : ImportArgs) (env : Env) (h : a.dry_run = true)
    (cards : List Card) :
    markLoop a env cards =
      (cards.map fun c => Event.outLine (wouldMarkLine c), Except.ok ()) := by
  induction cards with
  | nil => simp [markLoop]
  | cons c rest ih => simp [markLoop, h, ih]

/-- When every markKnown call succeeds, the live mark-known loop
performs one call and prints one line per fetched card, in order. -/
theorem markLoop_ok (a : ImportArgs) (env : Env) (hd : a.dry_run = false)
    (cards : List Card) (hok : ∀ c ∈ cards, env.markKnownOk c.pk = true) :
    markLoop a env cards =
      (cards.flatMap fun c => [Event.callMarkKnown c.pk, Event.outLine (markedLine c)],
       Except.ok ()) := by
  induction cards with
  | nil => simp [markLoop]
  | cons c rest ih =>
    have h1 : env.markKnownOk c.pk = true := hok c (by simp)
    have h2 := ih fun x hx => hok x (by simp [hx])
    simp [markLoop, hd, h1, h2]

/-- The live mark-known loop aborts at the first failing call: the
cards before the failure are called and confirmed, the failing card is
called, the cards after it are never attempted, and the loop ends in
the transport error. -/
theorem markLoop_abort (a : ImportArgs) (env : Env) (hd : a.dry_run = false) :
    ∀ (cards : List Card) (i : Nat) (hi : i < cards.length),
      (∀ j (hj : j < cards.length), j < i →
        env.markKnownOk ((cards.get ⟨j, hj⟩).pk) = true) →
      env.markKnownOk ((cards.get ⟨i, hi⟩).pk) = false →
      markLoop a env cards =
        (((cards.take i).flatMap fun c =>
            [Event.callMarkKnown c.pk, Event.outLine (markedLine c)])
           ++ [Event.callMarkKnown ((cards.get ⟨i, hi⟩).pk)],
         Except.error "TransportError") := by
  intro cards
  induction cards with
  | nil => intro i hi; exact absurd hi (by simp)
  | cons c rest ih =>
    intro i hi hbefore hfail
    cases i with
    | zero =>
      simp only [List.get] at hfail
      simp [markLoop, hd, hfail]
    | succ i' =>
      have h0 : env.markKnownOk c.pk = true := by
        have := hbefore 0 (by simp) (Nat.succ_pos i')
        simpa using this
      have hi' : i' < rest.length := by simpa using hi
      have hb' : ∀ j (hj : j < rest.length), j < i' →
          env.markKnownOk ((rest.get ⟨j, hj⟩).pk) = true := by
        intro j hj hji
        have := hbefore (j + 1) (by simpa using hj) (Nat.succ_lt_succ hji)
        simpa using this
      have hf' : env.markKnownOk ((rest.get ⟨i', hi'⟩).pk) = false := by
        simpa using hfail
      have hrec := ih i' hi' hb' hf'
      simp [markLoop, hd, h0, hrec]

/-- The report loop, run over a result sequence that fits inside the
payload list, prints exactly one classification line per result entry,
pairing payloads and results by position, and raises nothing. -/
theorem reportLoop_eq (ids : List (Option Nat)) :
    ∀ (notes : List NotePayload) (i : Nat), i + ids.length ≤ notes.length →
    reportLoop notes i ids =
      (((notes.drop i).zip ids).map fun p => Event.outLine (reportLine p.1 p.2),
       Except.ok ()) := by
  induction ids with
  | nil =>
    intro notes i h
    simp [reportLoop]
  | cons idOpt rest ih =>
    intro notes i h
    have hi : i < notes.length := by
      simp only [List.length_cons] at h
      omega
    have hrec := ih notes (i + 1) (by simp only [List.length_cons] at h; omega)
    simp only [reportLoop, List.getElem?_eq_getElem hi, hrec,
      List.drop_eq_getElem_cons hi, List.zip_cons_cons, List.map_cons]

/-- markCalls distributes over appended traces. -/
theorem markCalls_append (t1 t2 : List Event) :
    markCalls (t1 ++ t2) = markCalls t1 ++ markCalls t2 := by
  simp [markCalls]

/-- A trace made of output lines only contains no markKnown call. -/
theorem markCalls_map_outLine {α : Type} (f : α → String) (xs : List α) :
    markCalls (xs.map fun x => Event.outLine (f x)) = [] := by
  induction xs with
  | nil => rfl
  | cons x rest ih => simp [markCalls]

/-- The markKnown calls of the successful mark-known loop are exactly
the identifiers of the cards, in order. -/
theorem markCalls_mark_bind (cards : List Card) :
    markCalls (cards.flatMap fun c =>
        [Event.callMarkKnown c.pk, Event.outLine (markedLine c)]) =
      cards.map Card.pk := by
  induction cards with
  | nil => rfl
  | cons c rest ih =>
    simp only [List.flatMap_cons, markCalls, List.filterMap_append] at ih ⊢
    simp [ih]

/-! ## Sample data used by concrete witnesses -/

/-- The hint of the sample response quoted at the top of main.py. -/
def sampleHint : Hint := { text := "as soon as" }

/-- The card of the sample response quoted at the top of main.py. -/
def sampleCard : Card := { pk := 185034977, term := "dès que", hints := [sampleHint] }

/-- A card with an empty hints sequence. -/
def hintlessCard : Card := { pk := 7, term := "voila", hints := [] }

/-- An environment in which every remote call succeeds. -/
def envOk : Env :=
  { versionResult := Except.ok 6,
    deckNamesResult := Except.ok ["Default"],
    modelNamesResult := Except.ok ["Basic"],
    modelFieldsResult := fun _ => Except.ok ["Front", "Back"],
    loginResult := Except.ok "token123",
    languagesResult := Except.ok ["fr", "de"],
    cardsResult := Except.ok { count := 2, results := [sampleCard, hintlessCard] },
    addNotesResult := Except.ok [some 12345],
    markKnownOk := fun _ => true }

/-- Import options used by concrete witnesses. -/
def argsDry : ImportArgs :=
  { username := "alice", password := "pw", language := "fr",
    dry_run := true, mark_known := true }

/-- Live-mode import options used by concrete witnesses. -/
def argsLive : ImportArgs :=
  { username := "alice", password := "pw", language := "fr",
    dry_run := false, mark_known := false }

/-- Live-mode import options with mark-known requested. -/
def argsLiveMark : ImportArgs :=
  { username := "alice", password := "pw", language := "fr",
    dry_run := false, mark_known := true }

/-! ## C3: dry-run mode -/

/-- The fixed event prelude of the import branch once the version
probe, the login and the card fetch have succeeded. -/
def importPrelude (a : ImportArgs) (v : Nat) : List Event :=
  [Event.callVersion, Event.errLine (connectedLine v),
   Event.callLogin a.username a.password, Event.callListCards a.language]

/-- C3: in dry-run mode the import branch performs no addNotes call
and no markKnown call, whatever the environment returns; and whenever
the probe, the login and the fetch succeed, it prints exactly one
would-add line per payload that live mode would submit and, when
mark-known is requested, one would-mark line per fetched card that
live mode would mark. -/
theorem dry_run_never_mutates (a : ImportArgs) (env : Env) (h : a.dry_run = true) :
    (∀ ns, Event.callAddNotes ns ∉ (importBranch a env).1)
    ∧ (∀ pk, Event.callMarkKnown pk ∉ (importBranch a env).1)
    ∧ (∀ v tok resp cards,
        env.versionResult = Except.ok v →
        env.loginResult = Except.ok tok →
        env.cardsResult = Except.ok resp →
        list_unlearned_cards resp = Except.ok cards →
        importBranch a env =
          (importPrelude a v
            ++ (notes_to_create a.deck a.model cards).map
                 (fun n => Event.outLine (wouldAddLine n))
            ++ (if a.mark_known then
                  cards.map fun c => Event.outLine (wouldMarkLine c)
                else []),
           Except.ok ())) := by
  have hbranch : ∀ v tok resp cards,
      env.versionResult = Except.ok v →
      env.loginResult = Except.ok tok →
      env.cardsResult = Except.ok resp →
      list_unlearned_cards resp = Except.ok cards →
      importBranch a env =
        (importPrelude a v
          ++ (notes_to_create a.deck a.model cards).map
               (fun n => Event.outLine (wouldAddLine n))
          ++ (if a.mark_known then
                cards.map fun c => Event.outLine (wouldMarkLine c)
              else []),
         Except.ok ()) := by
    intro v tok resp cards hv hl hc hcards
    cases hm : a.mark_known <;>
      simp [importBranch, hv, hl, hc, hcards, submitPhase, h, hm,
        markLoop_dry a env h, importPrelude, List.append_assoc]
  refine ⟨?_, ?_, hbranch⟩
  all_goals
    intro x hmem
    rcases hv : env.versionResult with e | v
    · simp [importBranch, hv] at hmem
    · rcases hl : env.loginResult with e | tok
      · simp [importBranch, hv, hl] at hmem
      · rcases hc : env.cardsResult with e | resp
        · simp [importBranch, hv, hl, hc] at hmem
        · rcases hcards : list_unlearned_cards resp with e | cards
          · simp [importBranch, hv, hl, hc, hcards] at hmem
          · rw [hbranch v tok resp cards hv hl hc hcards] at hmem
            rcases a.mark_known <;> simp [importPrelude] at hmem

/-- C3 witness: with the sample environment and dry-run options, the
trace of the import branch contains no addNotes call. -/
theorem dry_run_never_mutates_witness :
    Event.callAddNotes [] ∉ (importBranch argsDry envOk).1 :=
  (dry_run_never_mutates argsDry envOk rfl).1 []

/-! ## C1: filter and transform of the import workflow -/

/-- C1: the import workflow produces a payload for a fetched card if
and only if the hints sequence of the card is non-empty; the retained
payloads keep the order of the fetched cards, and each payload carries
the term of its card as the front text and the text of the first hint
of its card as the back text. -/
theorem notes_to_create_spec (deck model : Option String) (cards : List Card) :
    notes_to_create deck model cards =
      (cards.filter fun c => !c.hints.isEmpty).map fun c =>
        { deckName := deck, modelName := model,
          front := c.term,
          back := (c.hints.head?.elim "" Hint.text),
          tags := "lingq" } := by
  induction cards with
  | nil => rfl
  | cons c rest ih =>
    cases hh : c.hints with
    | nil =>
      simp [notes_to_create, List.filterMap_cons, hh] at ih ⊢
      exact ih
    | cons h0 hs =>
      simp [notes_to_create, List.filterMap_cons, hh] at ih ⊢
      exact ih

/-! ## C2: pagination guard -/

/-- C2: the fetch of the card listing returns the results sequence
unchanged exactly when its length equals the reported count, and fails
via the assertion otherwise, never returning a partial list. -/
theorem list_unlearned_cards_pagination_guard (resp : CardsResponse) :
    (resp.results.length = resp.count →
        list_unlearned_cards resp = Except.ok resp.results)
    ∧ (resp.results.length ≠ resp.count →
        list_unlearned_cards resp = Except.error assertionErrorMsg) := by
  constructor
  · intro h
    simp [list_unlearned_cards, h]
  · intro h
    simp [list_unlearned_cards, h]

/-! ## C4: classification of the addNotes results -/

/-- C4: when live mode submits the payloads and the service returns
one result entry per payload, the report prints, by position, the
duplicate line exactly for the null entries and the added line for the
id-bearing entries, then prints as final count the number of non-null
entries, and the command returns exit code 0: a duplicate is a normal
outcome, not an error. -/
theorem addnotes_report_classification (a : ImportArgs) (env : Env)
    (v : Nat) (tok : String) (resp : CardsResponse) (cards : List Card)
    (ids : List (Option Nat))
    (hdry : a.dry_run = false) (hmk : a.mark_known = false)
    (hv : env.versionResult = Except.ok v)
    (hl : env.loginResult = Except.ok tok)
    (hc : env.cardsResult = Except.ok resp)
    (hcards : list_unlearned_cards resp = Except.ok cards)
    (hids : env.addNotesResult = Except.ok ids)
    (hlen : ids.length = (notes_to_create a.deck a.model cards).length) :
    mainBody (Command.importCmd a) env =
      (importPrelude a v
        ++ Event.callAddNotes (notes_to_create a.deck a.model cards)
             :: ((notes_to_create a.deck a.model cards).zip ids).map
                  (fun p => Event.outLine (reportLine p.1 p.2))
        ++ [Event.outLine (summaryLine (ids.filter fun n => n.isSome).length)],
       Except.ok 0) := by
  have hrl := reportLoop_eq ids (notes_to_create a.deck a.model cards) 0 (by omega)
  simp [mainBody, importBranch, hv, hl, hc, hcards, submitPhase, hdry, hmk, hids,
    hrl, importPrelude, List.append_assoc]

/-- C4 witness: with the sample environment (one payload, one
id-bearing result), the report prints the added line and the count
line 1 new cards added, and the command returns 0. -/
theorem addnotes_report_classification_witness :
    (mainBody (Command.importCmd argsLive) envOk).2 = Except.ok 0 := by
  rw [addnotes_report_classification argsLive envOk 6 "token123"
        { count := 2, results := [sampleCard, hintlessCard] }
        [sampleCard, hintlessCard] [some 12345]
        rfl rfl rfl rfl rfl rfl rfl rfl]

/-! ## C5: the mark-known step covers every fetched card -/

/-- C5: in live mode with mark-known requested, once the submit phase
completes, markKnown is called exactly once per originally fetched
card, in order — including the cards whose empty hints sequence
produced no payload — and the list of marked cards does not depend on
the values of the addNotes result entries (the result sequence ids is
arbitrary apart from its length). -/
theorem mark_known_covers_all_cards (a : ImportArgs) (env : Env)
    (v : Nat) (tok : String) (resp : CardsResponse) (cards : List Card)
    (ids : List (Option Nat))
    (hdry : a.dry_run = false) (hmk : a.mark_known = true)
    (hv : env.versionResult = Except.ok v)
    (hl : env.loginResult = Except.ok tok)
    (hc : env.cardsResult = Except.ok resp)
    (hcards : list_unlearned_cards resp = Except.ok cards)
    (hids : env.addNotesResult = Except.ok ids)
    (hlen : ids.length = (notes_to_create a.deck a.model cards).length)
    (hok : ∀ pk, env.markKnownOk pk = true) :
    markCalls (importBranch a env).1 = cards.map Card.pk := by
  have hrl := reportLoop_eq ids (notes_to_create a.deck a.model cards) 0 (by omega)
  have hml := markLoop_ok a env hdry cards fun c _ => hok c.pk
  have htr : (importBranch a env).1 =
      importPrelude a v
        ++ (Event.callAddNotes (notes_to_create a.deck a.model cards)
              :: ((notes_to_create a.deck a.model cards).zip ids).map
                   (fun p => Event.outLine (reportLine p.1 p.2))
              ++ [Event.outLine (summaryLine (ids.filter fun n => n.isSome).length)])
        ++ (cards.flatMap fun c =>
              [Event.callMarkKnown c.pk, Event.outLine (markedLine c)]) := by
    simp [importBranch, hv, hl, hc, hcards, submitPhase, hdry, hmk, hids, hrl, hml,
      importPrelude]
  rw [htr, markCalls_append, markCalls_append, markCalls_mark_bind]
  have h1 : markCalls (importPrelude a v) = [] := rfl
  have h2 : markCalls
      (Event.callAddNotes (notes_to_create a.deck a.model cards)
        :: ((notes_to_create a.deck a.model cards).zip ids).map
             (fun p => Event.outLine (reportLine p.1 p.2))
        ++ [Event.outLine (summaryLine (ids.filter fun n => n.isSome).length)]) = [] := by
    show markCalls
      (((notes_to_create a.deck a.model cards).zip ids).map
          (fun p => Event.outLine (reportLine p.1 p.2))
        ++ [Event.outLine (summaryLine (ids.filter fun n => n.isSome).length)]) = []
    rw [markCalls_append,
      markCalls_map_outLine (fun p => reportLine p.1 p.2)
        ((notes_to_create a.deck a.model cards).zip ids)]
    rfl
  rw [h1, h2]
  rfl

/-- C5 witness: with the sample environment (two fetched cards, the
second one without hints, one addNotes result entry), both cards are
marked known. -/
theorem mark_known_covers_all_cards_witness :
    markCalls (importBranch argsLiveMark envOk).1 = [185034977, 7] :=
  mark_known_covers_all_cards argsLiveMark envOk 6 "token123"
    { count := 2, results := [sampleCard, hintlessCard] }
    [sampleCard, hintlessCard] [some 12345]
    rfl rfl rfl rfl rfl rfl rfl rfl (fun _ => rfl)

/-! ## C9: the mark-known loop aborts on its first error -/

/-- C9: if the markKnown call for the card at position i fails, then
the import branch ends in the transport error at that point: the cards at
positions before i have been called (their effect is not rolled back),
the card at position i is called and fails, and the cards after i are
never attempted — the loop is abort-on-first-error. -/
theorem mark_known_aborts_on_first_error (a : ImportArgs) (env : Env)
    (v : Nat) (tok : String) (resp : CardsResponse) (cards : List Card)
    (ids : List (Option Nat)) (i : Nat) (hi : i < cards.length)
    (hdry : a.dry_run = false) (hmk : a.mark_known = true)
    (hv : env.versionResult = Except.ok v)
    (hl : env.loginResult = Except.ok tok)
    (hc : env.cardsResult = Except.ok resp)
    (hcards : list_unlearned_cards resp = Except.ok cards)
    (hids : env.addNotesResult = Except.ok ids)
    (hlen : ids.length = (notes_to_create a.deck a.model cards).length)
    (hbefore : ∀ j (hj : j < cards.length), j < i →
      env.markKnownOk ((cards.get ⟨j, hj⟩).pk) = true)
    (hfail : env.markKnownOk ((cards.get ⟨i, hi⟩).pk) = false) :
    (importBranch a env).2 = Except.error "TransportError"
    ∧ markCalls (importBranch a env).1 = (cards.take (i + 1)).map Card.pk := by
  have hrl := reportLoop_eq ids (notes_to_create a.deck a.model cards) 0 (by omega)
  have hml := markLoop_abort a env hdry cards i hi hbefore hfail
  have htr : importBranch a env =
      (importPrelude a v
        ++ (Event.callAddNotes (notes_to_create a.deck a.model cards)
              :: ((notes_to_create a.deck a.model cards).zip ids).map
                   (fun p => Event.outLine (reportLine p.1 p.2))
              ++ [Event.outLine (summaryLine (ids.filter fun n => n.isSome).length)])
        ++ (((cards.take i).flatMap fun c =>
              [Event.callMarkKnown c.pk, Event.outLine (markedLine c)])
            ++ [Event.callMarkKnown ((cards.get ⟨i, hi⟩).pk)]),
       Except.error "TransportError") := by
    simp [importBranch, hv, hl, hc, hcards, submitPhase, hdry, hmk, hids, hrl, hml,
      importPrelude]
  have htake : (cards.take (i + 1)).map Card.pk
      = (cards.take i).map Card.pk ++ [(cards.get ⟨i, hi⟩).pk] := by
    rw [List.take_succ, List.getElem?_eq_getElem hi, List.map_append]
    rfl
  have h1 : markCalls (importPrelude a v) = [] := rfl
  have hX : markCalls
      (Event.callAddNotes (notes_to_create a.deck a.model cards)
        :: ((notes_to_create a.deck a.model cards).zip ids).map
             (fun p => Event.outLine (reportLine p.1 p.2))) = [] := by
    show markCalls
      (((notes_to_create a.deck a.model cards).zip ids).map
          (fun (p : NotePayload × Option Nat) => Event.outLine (reportLine p.1 p.2))) = []
    exact markCalls_map_outLine
      (fun (p : NotePayload × Option Nat) => reportLine p.1 p.2) _
  constructor
  · rw [htr]
  · rw [htr]
    show markCalls
        (importPrelude a v
          ++ (Event.callAddNotes (notes_to_create a.deck a.model cards)
                :: ((notes_to_create a.deck a.model cards).zip ids).map
                     (fun p => Event.outLine (reportLine p.1 p.2))
                ++ [Event.outLine (summaryLine (ids.filter fun n => n.isSome).length)])
          ++ (((cards.take i).flatMap fun c =>
                [Event.callMarkKnown c.pk, Event.outLine (markedLine c)])
              ++ [Event.callMarkKnown ((cards.get ⟨i, hi⟩).pk)]))
        = (cards.take (i + 1)).map Card.pk
    rw [markCalls_append, markCalls_append, markCalls_append, markCalls_append,
      markCalls_mark_bind, htake, h1, hX]
    simp [markCalls]

/-- C9 witness: with an environment whose markKnown call fails for the
card with identifier 7 (the second fetched card), the import branch
ends in the transport error after calling markKnown for both the first
and the failing card, and never beyond. -/
theorem mark_known_aborts_on_first_error_witness :
    (importBranch argsLiveMark
        { envOk with markKnownOk := fun pk => pk != 7 }).2
      = Except.error "TransportError"
    ∧ markCalls (importBranch argsLiveMark
        { envOk with markKnownOk := fun pk => pk != 7 }).1
      = [185034977, 7] :=
  mark_known_aborts_on_first_error argsLiveMark
    { envOk with markKnownOk := fun pk => pk != 7 } 6 "token123"
    { count := 2, results := [sampleCard, hintlessCard] }
    [sampleCard, hintlessCard] [some 12345] 1 (by decide)
    rfl rfl rfl rfl rfl rfl rfl rfl (by decide) (by decide)

/-! ## C7: exit statuses of the command surface -/

/-- C10: invoking the import subcommand with only its three required
options parses without error into arguments whose deck and model are
None; every payload then built carries None as its deck name and model
name; and live mode submits exactly those payloads to addNotes
unchanged. -/
theorem import_defaults_deck_model_none (u p l : String)
    (hu : looksLikeOption u = false) (hp : looksLikeOption p = false)
    (hl0 : looksLikeOption l = false)
    (env : Env) (v : Nat) (tok : String) (resp : CardsResponse) (cards : List Card)
    (hv : env.versionResult = Except.ok v)
    (hlo : env.loginResult = Except.ok tok)
    (hc : env.cardsResult = Except.ok resp)
    (hcards : list_unlearned_cards resp = Except.ok cards) :
    parse_arguments ["import", "--username", u, "--password", p, "--language", l] =
      Except.ok (Command.importCmd
        { username := u, password := p, language := l,
          deck := none, model := none, dry_run := false, mark_known := false })
    ∧ (∀ n ∈ notes_to_create none none cards, n.deckName = none ∧ n.modelName = none)
    ∧ Event.callAddNotes (notes_to_create none none cards) ∈
        (importBranch
          { username := u, password := p, language := l,
            deck := none, model := none, dry_run := false, mark_known := false }
          env).1 := by
  refine ⟨?_, ?_, ?_⟩
  · simp only [parse_arguments, parseImportArgs, parseImportTokens, hu, hp, hl0,
      Bool.false_eq_true, if_false, reduceCtorEq, reduceIte]
    rfl
  · intro n hn
    simp only [notes_to_create, List.mem_filterMap] at hn
    obtain ⟨card, hcmem, hsome⟩ := hn
    by_cases hlen : 0 < card.hints.length
    · rw [dif_pos hlen, Option.some.injEq] at hsome
      rw [← hsome]
      exact ⟨rfl, rfl⟩
    · rw [dif_neg hlen] at hsome
      exact absurd hsome (by simp)
  · rcases han : env.addNotesResult with e | ids
    · simp [importBranch, hv, hlo, hc, hcards, submitPhase, han]
    · rcases hrl : reportLoop (notes_to_create none none cards) 0 ids with ⟨evs, r⟩
      cases r with
      | error e => simp [importBranch, hv, hlo, hc, hcards, submitPhase, han, hrl]
      | ok u => simp [importBranch, hv, hlo, hc, hcards, submitPhase, han, hrl]

/-- C10 witness: the concrete invocation with only the required
options parses into import arguments with deck and model None. -/
theorem import_defaults_deck_model_none_witness :
    parse_arguments
        ["import", "--username", "alice", "--password", "pw", "--language", "fr"] =
      Except.ok (Command.importCmd
        { username := "alice", password := "pw", language := "fr",
          deck := none, model := none, dry_run := false, mark_known := false }) :=
  (import_defaults_deck_model_none "alice" "pw" "fr" (by decide) (by decide) (by decide)
    envOk 6 "token123"
    { count := 2, results := [sampleCard, hintlessCard] } [sampleCard, hintlessCard]
    rfl rfl rfl rfl).1

/-! ## C6: URL schemes of the LingQ requests -/

/-- C6 counterexample: the mark-known request is not sent over HTTPS;
its URL has the http scheme (main.py line 120), so the claim that
every Learning-Service request uses the https scheme is false. -/
theorem mark_known_request_not_https :
    isHttps (mark_linqg_known_request "token" "fr" 185034977).url = false := by
  decide

/-- C6 amended: the login, language-listing and card-listing requests
are sent over HTTPS, but the mark-known request uses the http scheme
for every token, language code and card id. -/
theorem lingq_request_schemes (username password token language_code : String) (idv : Nat) :
    isHttps (lingq_login_request username password).url = true
    ∧ isHttps (lingq_list_languages_request token).url = true
    ∧ isHttps (list_unlearned_cards_request token language_code).url = true
    ∧ isHttps (mark_linqg_known_request token language_code idv).url = false := by
  refine ⟨rfl, rfl, ?_, ?_⟩
  · simp only [list_unlearned_cards_request, isHttps, String.data_append, List.append_assoc]
    rw [List.take_append_of_le_length (by decide)]
    decide
  · simp only [mark_linqg_known_request, isHttps, String.data_append, List.append_assoc]
    rw [List.take_append_of_le_length (by decide)]
    decide

/-! ## C8: the exact numeric status codes sent on the wire -/

/-- A note payload serialises to a JSON object with no key named
status anywhere inside it. -/
theorem jvalStatusValues_notePayloadJson (n : NotePayload) :
    jvalStatusValues (notePayloadJson n) = [] := by
  obtain ⟨d, m, f, b, t⟩ := n
  cases d <;> cases m <;> rfl

/-- A list of serialised note payloads carries no status key. -/
theorem jlistStatusValues_map_notePayloadJson (notes : List NotePayload) :
    jlistStatusValues (notes.map notePayloadJson) = [] := by
  induction notes with
  | nil => rfl
  | cons n rest ih =>
    simp [jlistStatusValues, jvalStatusValues_notePayloadJson, ih]

/-- C8: the card fetch sends exactly the query status value 0 and the
mark-known request sends exactly the JSON body value status 3, while
every other request the program builds carries no status value at all,
in its query, its form data or its JSON body. -/
theorem status_codes_exact (model_name token username password language_code : String)
    (idv : Nat) (note_data : List NotePayload) :
    statusQueryValues (list_unlearned_cards_request token language_code) = ["0"]
    ∧ statusFormValues (list_unlearned_cards_request token language_code) = []
    ∧ statusJsonValues (list_unlearned_cards_request token language_code) = []
    ∧ statusQueryValues (mark_linqg_known_request token language_code idv) = []
    ∧ statusFormValues (mark_linqg_known_request token language_code idv) = []
    ∧ statusJsonValues (mark_linqg_known_request token language_code idv) = [JVal.jnum 3]
    ∧ (∀ r ∈ [anki_connect_version_request, anki_connect_list_decks_request,
          anki_connect_list_models_request, anki_connect_model_fields_request model_name,
          anki_connect_add_notes_request note_data,
          lingq_login_request username password,
          lingq_list_languages_request token],
        statusQueryValues r = [] ∧ statusFormValues r = [] ∧ statusJsonValues r = []) := by
  refine ⟨rfl, rfl, rfl, rfl, rfl, rfl, ?_⟩
  intro r hr
  simp only [List.mem_cons, List.not_mem_nil, or_false] at hr
  rcases hr with h | h | h | h | h | h | h <;> subst h
  · exact ⟨rfl, rfl, rfl⟩
  · exact ⟨rfl, rfl, rfl⟩
  · exact ⟨rfl, rfl, rfl⟩
  · exact ⟨rfl, rfl, rfl⟩
  · refine ⟨rfl, rfl, ?_⟩
    simp [anki_connect_add_notes_request, anki_request, statusJsonValues,
      jvalStatusValues, jfieldsStatusValues, jlistStatusValues_map_notePayloadJson]
  · exact ⟨rfl, rfl, rfl⟩
  · exact ⟨rfl, rfl, rfl⟩

/-- C2 witness: a response reporting count 5 while carrying 3 results
makes the fetch fail via the assertion, and a consistent response is
returned unchanged. -/
theorem list_unlearned_cards_pagination_guard_witness :
    list_unlearned_cards { count := 5, results := [sampleCard, sampleCard, sampleCard] }
        = Except.error assertionErrorMsg
    ∧ list_unlearned_cards { count := 1, results := [sampleCard] }
        = Except.ok [sampleCard] :=
  ⟨(list_unlearned_cards_pagination_guard _).2 (by decide),
   (list_unlearned_cards_pagination_guard _).1 (by decide)⟩

end LingqToAnki
